import Mathlib

/-!
Verification of the aidoctor workflow core (src/functions/index.js) against its
natural-language specification.  The JavaScript is shallowly embedded: JS values
are an inductive `JSValue`, property access / truthiness / `typeof` follow the
ECMAScript semantics the code relies on, thrown exceptions are `Except JsError`,
and the external collaborators (Gemini/OpenAI gateway, Cognee graph store,
Firestore history backend) are oracles and explicit store states.
-/

set_option maxHeartbeats 1000000

/-- A JavaScript value, as manipulated by src/functions/index.js.  Numbers are
modelled as exact rationals (the numbers occurring in the verified code paths
are array lengths and their means; no float-rounding-sensitive comparison is
exercised at the `.> 3.` threshold because counts are integers and means have
denominator at most the 10-element window size). -/
inductive JSValue where
  | undefined
  | null
  | bool (b : Bool)
  | num (q : ℚ)
  | str (s : String)
  | arr (elems : List JSValue)
  | obj (fields : List (String × JSValue))

namespace JSValue

/-- JS truthiness (`if (x)`, `x || d`): undefined, null, false, 0 and "" are
falsy; every object and array is truthy. -/
def truthy : JSValue → Bool
  | .undefined => false
  | .null => false
  | .bool b => b
  | .num q => q ≠ 0
  | .str s => s ≠ ""
  | .arr _ => true
  | .obj _ => true

/-- JS `typeof`. -/
def typeof : JSValue → String
  | .undefined => "undefined"
  | .null => "object"
  | .bool _ => "boolean"
  | .num _ => "number"
  | .str _ => "string"
  | .arr _ => "object"
  | .obj _ => "object"

def isNull : JSValue → Bool
  | .null => true
  | _ => false

def isUndefined : JSValue → Bool
  | .undefined => true
  | _ => false

def isArray : JSValue → Bool
  | .arr _ => true
  | _ => false

def elems : JSValue → List JSValue
  | .arr xs => xs
  | _ => []

end JSValue

/-- Duplicate-key object lookup: the later binding wins, as in a JS object
literal / `JSON.parse`. -/
def objLookup (fields : List (String × JSValue)) (key : String) : Option JSValue :=
  fields.foldl (fun acc p => if p.1 = key then some p.2 else acc) none

/-- Property read on a value that is known not to be null/undefined (total):
objects look the key up, strings and arrays expose `length`, other primitives
yield `undefined`. -/
def getPropD (v : JSValue) (key : String) : JSValue :=
  match v with
  | .obj fields =>
    match objLookup fields key with
    | some w => w
    | none => .undefined
  | .arr xs => if key = "length" then .num xs.length else .undefined
  | .str s => if key = "length" then .num s.length else .undefined
  | _ => .undefined

/-- The exception taxonomy of the embedded code: `typeError` is a runtime
TypeError (property access on null/undefined, calling a non-function),
`jsError` a thrown `new Error(msg)`, `providerError` a model-gateway failure,
`parseError` a `JSON.parse` failure, `storeError` a Cognee/Firestore failure. -/
inductive JsError where
  | typeError (msg : String)
  | jsError (msg : String)
  | providerError (msg : String)
  | parseError (msg : String)
  | storeError (msg : String)
deriving DecidableEq, Repr

/-- The message carried by a thrown error (`error.message`). -/
def JsError.message : JsError → String
  | .typeError m => m
  | .jsError m => m
  | .providerError m => m
  | .parseError m => m
  | .storeError m => m

/-- JS property access `base.key`: throws a TypeError when the base is null or
undefined, otherwise reads the property. -/
def jsGet (v : JSValue) (key : String) : Except JsError JSValue :=
  match v with
  | .null => .error (.typeError ("Cannot read properties of null (reading " ++ key ++ ")"))
  | .undefined => .error (.typeError ("Cannot read properties of undefined (reading " ++ key ++ ")"))
  | _ => .ok (getPropD v key)

/-- JS optional chaining `base?.key`: yields undefined (instead of throwing)
when the base is null or undefined. -/
def optChain (v : JSValue) (key : String) : JSValue :=
  match v with
  | .null => .undefined
  | .undefined => .undefined
  | _ => getPropD v key

/-- JS `x || d`. -/
def jsOrDefault (v d : JSValue) : JSValue :=
  if v.truthy then v else d

/-- Schema validation result `{isValid, errors}` (src/functions/index.js,
validateExtractionSchema / validateDiagnosisSchema). -/
structure VResult where
  isValid : Bool
  errors : List String
deriving DecidableEq, Repr

/-- Errors contributed by the `patient_info` block of validateExtractionSchema
(the source pushes each message onto a shared `errors` array; the translation
collects the same messages in the same order).  Inner property reads are total
because they are guarded by the truthiness check (a truthy value is never
null/undefined). -/
def pinfoErrors (pinfo : JSValue) : List String :=
  if ¬ pinfo.truthy then ["Missing patient_info"]
  else
    (if (getPropD pinfo "name").typeof ≠ "string" then ["patient_info.name must be string"] else []) ++
    (if (getPropD pinfo "age").typeof ≠ "number" then ["patient_info.age must be number"] else []) ++
    (if ¬ (getPropD pinfo "id").isNull ∧ (getPropD pinfo "id").typeof ≠ "string" then
      ["patient_info.id must be string or null"] else [])

/-- Per-index errors of the `symptoms.forEach` loop. -/
def symptomItemErrors (xs : List JSValue) : List String :=
  xs.enum.filterMap fun p =>
    if p.2.typeof ≠ "string" then some ("symptom[" ++ toString p.1 ++ "] must be string") else none

/-- Errors contributed by the `symptoms` block of validateExtractionSchema. -/
def symptomErrors (syms : JSValue) : List String :=
  if ¬ syms.isArray then ["symptoms must be array"]
  else symptomItemErrors syms.elems

/-- Errors contributed by the `motive` check of validateExtractionSchema. -/
def motiveErrors (motv : JSValue) : List String :=
  if motv.typeof ≠ "string" then ["motive must be string"] else []

/-- validateExtractionSchema (src/functions/index.js lines 82-116).  The three
`data.…` reads throw on null/undefined `data` exactly as in JS; the error
messages accumulate in source order. -/
def validateExtractionSchema (data : JSValue) : Except JsError VResult := do
  let pinfo ← jsGet data "patient_info"
  let syms ← jsGet data "symptoms"
  let motv ← jsGet data "motive"
  let errors := pinfoErrors pinfo ++ symptomErrors syms ++ motiveErrors motv
  return { isValid := errors.isEmpty, errors := errors }

/-- Errors of validateDiagnosisSchema, in source order. -/
def diagnosisFieldErrors (d t r : JSValue) : List String :=
  (if d.typeof ≠ "string" then ["diagnosis must be string"] else []) ++
  (if t.typeof ≠ "string" then ["treatment must be string"] else []) ++
  (if r.typeof ≠ "string" then ["recommendations must be string"] else [])

/-- validateDiagnosisSchema (src/functions/index.js lines 118-129). -/
def validateDiagnosisSchema (data : JSValue) : Except JsError VResult := do
  let d ← jsGet data "diagnosis"
  let t ← jsGet data "treatment"
  let r ← jsGet data "recommendations"
  let errors := diagnosisFieldErrors d t r
  return { isValid := errors.isEmpty, errors := errors }

theorem jsGet_of_ne (v : JSValue) (key : String) (h1 : v ≠ .null) (h2 : v ≠ .undefined) :
    jsGet v key = .ok (getPropD v key) := by
  cases v <;> simp_all [jsGet]

/-- On any input other than null/undefined, validateExtractionSchema returns
normally with the concatenated error lists. -/
theorem validateExtractionSchema_ok (data : JSValue) (h1 : data ≠ .null) (h2 : data ≠ .undefined) :
    validateExtractionSchema data =
      .ok { isValid := (pinfoErrors (getPropD data "patient_info") ++
                        symptomErrors (getPropD data "symptoms") ++
                        motiveErrors (getPropD data "motive")).isEmpty,
            errors := pinfoErrors (getPropD data "patient_info") ++
                      symptomErrors (getPropD data "symptoms") ++
                      motiveErrors (getPropD data "motive") } := by
  unfold validateExtractionSchema
  rw [jsGet_of_ne data "patient_info" h1 h2, jsGet_of_ne data "symptoms" h1 h2,
    jsGet_of_ne data "motive" h1 h2]
  rfl

/-- On any input other than null/undefined, validateDiagnosisSchema returns
normally with the concatenated error lists. -/
theorem validateDiagnosisSchema_ok (data : JSValue) (h1 : data ≠ .null) (h2 : data ≠ .undefined) :
    validateDiagnosisSchema data =
      .ok { isValid := (diagnosisFieldErrors (getPropD data "diagnosis")
                        (getPropD data "treatment") (getPropD data "recommendations")).isEmpty,
            errors := diagnosisFieldErrors (getPropD data "diagnosis")
                        (getPropD data "treatment") (getPropD data "recommendations") } := by
  unfold validateDiagnosisSchema
  rw [jsGet_of_ne data "diagnosis" h1 h2, jsGet_of_ne data "treatment" h1 h2,
    jsGet_of_ne data "recommendations" h1 h2]
  rfl

/-- `v?.length`: undefined when `v` is null/undefined, otherwise the `length`
property. -/
def jsOptLength (v : JSValue) : JSValue :=
  optChain v "length"

/-- `v?.length || 0` coerced into the arithmetic of detectDrift: the length of
an array (or string), and 0 for everything else. -/
def jsCountQ (syms : JSValue) : ℚ :=
  match jsOptLength syms with
  | .num q => q
  | _ => 0

/-- Renders the rationals that arise as symptom counts (always nonnegative
integers) the way a JS template literal renders the corresponding number. -/
def qIntString (q : ℚ) : String :=
  if q.den = 1 then
    (if q.num < 0 then "-" ++ Nat.repr q.num.natAbs else Nat.repr q.num.natAbs)
  else toString q

/-- Models `Number.prototype.toFixed(1)` for the nonnegative values produced as
mean symptom counts: round half away from zero to one decimal place. -/
def toFixed1 (q : ℚ) : String :=
  let t : ℤ := ⌊q * 10 + 1 / 2⌋
  qIntString ((t / 10 : ℤ) : ℚ) ++ "." ++ Nat.repr ((t % 10).natAbs)

def schemaDriftMsg (errs : List String) : String :=
  "Schema validation failed: " ++ String.intercalate ", " errs

def varianceMsg (current avg : ℚ) : String :=
  "Symptom count variance detected: current=" ++ qIntString current ++ ", avg=" ++ toFixed1 avg

/-- Drift detection result `{hasDrift, flags}`. -/
structure DriftResult where
  hasDrift : Bool
  flags : List String
deriving DecidableEq, Repr

/-- Mean symptom count over the window, as computed by detectDrift's `reduce`;
throws (like the JS `result.symptoms` read) when a window entry is
null/undefined. -/
def symptomCountSum (previousResults : List JSValue) : Except JsError ℚ :=
  previousResults.foldlM
    (fun sum result => do
      let syms ← jsGet result "symptoms"
      pure (sum + jsCountQ syms))
    (0 : ℚ)

/-- detectDrift (src/functions/index.js lines 132-156).  Two independent
checks: schema re-validation of the current extraction, and symptom-count
variance over the previous-results window (flag when strictly above the fixed
threshold of 3).  The division producing the mean is exact rational division
standing in for the JS float division. -/
def detectDrift (extractionResult : JSValue) (previousResults : List JSValue) :
    Except JsError DriftResult := do
  let schemaValidation ← validateExtractionSchema extractionResult
  let flags1 :=
    if ¬ schemaValidation.isValid then [schemaDriftMsg schemaValidation.errors] else []
  let syms ← jsGet extractionResult "symptoms"
  let currentSymptomCount := jsCountQ syms
  let flags2 ←
    if previousResults.length > 0 then do
      let total ← symptomCountSum previousResults
      let avgSymptomCount := total / (previousResults.length : ℚ)
      let variance := |currentSymptomCount - avgSymptomCount|
      pure (if variance > 3 then [varianceMsg currentSymptomCount avgSymptomCount] else [])
    else pure []
  let driftFlags := flags1 ++ flags2
  return { hasDrift := ¬ driftFlags.isEmpty, flags := driftFlags }

/-- Characterization of detectDrift on non-null/undefined input with a window
whose entries are readable: the flags are exactly the schema part followed by
the variance part, and the variance flag appears iff the absolute difference
of the current count and the window mean strictly exceeds 3. -/
theorem detectDrift_ok (current : JSValue) (prev : List JSValue) (total : ℚ)
    (h1 : current ≠ .null) (h2 : current ≠ .undefined)
    (hsum : symptomCountSum prev = .ok total) :
    detectDrift current prev =
      .ok (let errs := pinfoErrors (getPropD current "patient_info") ++
                       symptomErrors (getPropD current "symptoms") ++
                       motiveErrors (getPropD current "motive")
           let flags1 := if ¬ errs.isEmpty then [schemaDriftMsg errs] else []
           let c := jsCountQ (getPropD current "symptoms")
           let flags2 :=
             if prev.length > 0 then
               (if |c - total / (prev.length : ℚ)| > 3 then
                 [varianceMsg c (total / (prev.length : ℚ))] else [])
             else []
           { hasDrift := ¬ (flags1 ++ flags2).isEmpty, flags := flags1 ++ flags2 }) := by
  unfold detectDrift
  rw [validateExtractionSchema_ok current h1 h2, jsGet_of_ne current "symptoms" h1 h2]
  by_cases hp : prev.length > 0
  · simp only [hp, if_true, hsum]
    rfl
  · simp only [hp, if_false]
    rfl

/-- Replaces the first occurrence of `pat` in `s` (the semantics of JS
`String.prototype.replace` with a string pattern, used for the `{text}` and
`{context}` placeholder substitution). -/
def replaceFirst (s pat rep : String) : String :=
  match s.splitOn pat with
  | [] => s
  | [_] => s
  | a :: rest => a ++ rep ++ String.intercalate pat rest

/-- List-level replace-all used to model `.replace(/```json/g, …)`. -/
def replaceAllChars (pat rep : List Char) (fuel : Nat) (cs : List Char) : List Char :=
  match fuel, cs with
  | 0, cs => cs
  | _, [] => []
  | fuel + 1, c :: cs' =>
    if pat ≠ [] ∧ pat.isPrefixOf (c :: cs') then
      rep ++ replaceAllChars pat rep fuel ((c :: cs').drop pat.length)
    else
      c :: replaceAllChars pat rep fuel cs'

/-- JS `s.replace(/pat/g, rep)` for a literal pattern. -/
def jsReplaceAll (s pat rep : String) : String :=
  ⟨replaceAllChars pat.data rep.data s.data.length s.data⟩

def jsWhitespace (c : Char) : Bool :=
  c = ' ' ∨ c = '\n' ∨ c = '\t' ∨ c = '\r'

/-- JS `String.prototype.trim`. -/
def jsTrim (s : String) : String :=
  ⟨(s.data.dropWhile jsWhitespace).reverse.dropWhile jsWhitespace |>.reverse⟩

/-- The fence-stripping normalization both steps apply before `JSON.parse`:
`response.content.replace(/```json/g, '').replace(/```/g, '').trim()`. -/
def stripFences (content : String) : String :=
  jsTrim (jsReplaceAll (jsReplaceAll content "```json" "") "```" "")

/-- Modelled from the spec: `JSON.parse` is a platform builtin absent from
src/; §4.2 requires completions to contain a JSON object and distinguishes a
parse failure from a provider failure.  This is a standard recursive-descent
JSON reader (fuelled for termination) over null/booleans/decimal
numbers/strings (with the basic escapes)/arrays/objects; exponents and unicode
escapes are not modelled — no verified path exercises them. -/
def digitsToNat (ds : List Char) : Nat :=
  ds.foldl (fun acc c => 10 * acc + (c.toNat - '0'.toNat)) 0

def parseStringChars (fuel : Nat) (cs : List Char) (acc : List Char) :
    Except JsError (String × List Char) :=
  match fuel, cs with
  | 0, _ => .error (.parseError "Unterminated string in JSON")
  | _, [] => .error (.parseError "Unterminated string in JSON")
  | fuel + 1, c :: rest =>
    if c = '"' then .ok (⟨acc.reverse⟩, rest)
    else if c = '\\' then
      match rest with
      | [] => .error (.parseError "Unterminated string in JSON")
      | e :: rest' =>
        let decoded := if e = 'n' then '\n' else if e = 't' then '\t' else e
        parseStringChars fuel rest' (decoded :: acc)
    else parseStringChars fuel rest (c :: acc)

def parseNumber (cs : List Char) : Except JsError (ℚ × List Char) :=
  let (neg, cs1) := if cs.head? = some '-' then (true, cs.drop 1) else (false, cs)
  let intDigits := cs1.takeWhile Char.isDigit
  let cs2 := cs1.drop intDigits.length
  if intDigits = [] then .error (.parseError "Unexpected token in JSON")
  else
    let (fracDigits, rest) :=
      if cs2.head? = some '.' then
        let fd := (cs2.drop 1).takeWhile Char.isDigit
        (fd, (cs2.drop 1).drop fd.length)
      else ([], cs2)
    let mag : ℚ :=
      if fracDigits = [] then (digitsToNat intDigits : ℚ)
      else (digitsToNat intDigits : ℚ) +
        (digitsToNat fracDigits : ℚ) / ((10 : ℚ) ^ fracDigits.length)
    .ok (if neg then -mag else mag, rest)

def skipWs (cs : List Char) : List Char :=
  cs.dropWhile jsWhitespace

mutual

def parseValue (fuel : Nat) (cs : List Char) : Except JsError (JSValue × List Char) :=
  match fuel with
  | 0 => .error (.parseError "JSON input too deeply nested")
  | fuel + 1 =>
    match skipWs cs with
    | [] => .error (.parseError "Unexpected end of JSON input")
    | 'n' :: 'u' :: 'l' :: 'l' :: rest => .ok (.null, rest)
    | 't' :: 'r' :: 'u' :: 'e' :: rest => .ok (.bool true, rest)
    | 'f' :: 'a' :: 'l' :: 's' :: 'e' :: rest => .ok (.bool false, rest)
    | '"' :: rest => do
      let (s, rest') ← parseStringChars rest.length rest []
      pure (.str s, rest')
    | '[' :: rest =>
      (match skipWs rest with
       | ']' :: rest' => .ok (.arr [], rest')
       | _ => parseElements fuel (skipWs rest) [])
    | '\x7b' :: rest =>
      (match skipWs rest with
       | '\x7d' :: rest' => .ok (.obj [], rest')
       | _ => parseMembers fuel (skipWs rest) [])
    | c :: rest =>
      if c.isDigit ∨ c = '-' then (parseNumber (c :: rest)).map fun p => (.num p.1, p.2)
      else .error (.parseError "Unexpected token in JSON")

def parseElements (fuel : Nat) (cs : List Char) (acc : List JSValue) :
    Except JsError (JSValue × List Char) :=
  match fuel with
  | 0 => .error (.parseError "JSON input too deeply nested")
  | fuel + 1 => do
    let (v, rest) ← parseValue fuel cs
    match skipWs rest with
    | ',' :: rest' => parseElements fuel rest' (v :: acc)
    | ']' :: rest' => pure (.arr (v :: acc).reverse, rest')
    | _ => .error (.parseError "Expected comma or close bracket in JSON array")

def parseMembers (fuel : Nat) (cs : List Char) (acc : List (String × JSValue)) :
    Except JsError (JSValue × List Char) :=
  match fuel with
  | 0 => .error (.parseError "JSON input too deeply nested")
  | fuel + 1 =>
    match skipWs cs with
    | '"' :: rest => do
      let (k, rest1) ← parseStringChars rest.length rest []
      match skipWs rest1 with
      | ':' :: rest2 => do
        let (v, rest3) ← parseValue fuel rest2
        match skipWs rest3 with
        | ',' :: rest4 => parseMembers fuel rest4 ((k, v) :: acc)
        | '\x7d' :: rest4 => pure (.obj ((k, v) :: acc).reverse, rest4)
        | _ => .error (.parseError "Expected comma or closing brace in JSON object")
      | _ => .error (.parseError "Expected : in JSON object")
    | _ => .error (.parseError "Expected string key in JSON object")

end

/-- `JSON.parse`: parse one value, then reject trailing garbage. -/
def jsonParse (s : String) : Except JsError JSValue := do
  let (v, rest) ← parseValue (s.data.length + 2) s.data
  if skipWs rest = [] then pure v
  else .error (.parseError "Unexpected non-whitespace character after JSON")

/-- A role-tagged message of the run-state. -/
structure Message where
  role : String
  content : String
deriving DecidableEq, Repr

/-- The RunState threaded through the LangGraph pipeline (createState,
src/functions/index.js lines 176-184). -/
structure RunState where
  messages : List Message
  extracted_data : JSValue
  diagnosis : JSValue
  patient_id : JSValue
  cognee_context : String
  transcription : String
  drift_flags : List String

/-- createState: the fresh per-run state. -/
def createState : RunState :=
  { messages := [], extracted_data := .obj [], diagnosis := .obj [],
    patient_id := .null, cognee_context := "", transcription := "", drift_flags := [] }

/-- Renders a value inside a JS template literal (used for
`patient-${patientId}` keys and the context lines).  Arrays/objects are
rendered shallowly; every verified path interpolates strings. -/
def jsTemplate : JSValue → String
  | .str s => s
  | .num q => qIntString q
  | .bool true => "true"
  | .bool false => "false"
  | .null => "null"
  | .undefined => "undefined"
  | .arr _ => ""
  | .obj _ => "[object Object]"

/-- Element rendering of `Array.prototype.join`: null/undefined render empty,
strings render themselves. -/
def jsJoinElem : JSValue → String
  | .str s => s
  | .num q => qIntString q
  | .bool true => "true"
  | .bool false => "false"
  | .null => ""
  | .undefined => ""
  | .arr _ => ""
  | .obj _ => "[object Object]"

/-- A node of a patient's Cognee knowledge graph, as built by
addToPatientGraph. -/
structure NodeRec where
  id : String
  type : String
  data : JSValue
  metadata_patient_id : JSValue
  metadata_consultation_date : String

/-- The external store state: Cognee graph existence and contents keyed by
graph id, and the Firestore `patients/{id}/history` collections keyed by
patient id.  Modelled from the spec for the parts outside src/: the history
backend is a namespaced append with newest-first reads (§6), so each history
list is kept newest-first. -/
structure World where
  created : String → Bool
  graphs : String → List NodeRec
  hist : String → List JSValue

/-- The per-run oracle for everything nondeterministic or external: the two
prompt files, the outcome of the two model-gateway calls (the returned
completion text, or a thrown ProviderError), failure switches for the Cognee
and Firestore backends, and the clock. -/
structure Env where
  extractPrompt : Option String
  diagnosisPrompt : Option String
  geminiResp : Except JsError String
  openaiResp : Except JsError String
  cogneeFail : Bool
  fsFail : Bool
  now : String
  nowMs : Nat
  requestId : String
  latencyMs : Nat

/-- The model gateway call of the extract step (`geminiModel.invoke`); the
outcome is the env oracle, the rendered prompt is transport payload. -/
def geminiInvoke (env : Env) (_prompt : String) : Except JsError String :=
  env.geminiResp

/-- The model gateway call of the diagnose step (`openaiModel.invoke`). -/
def openaiInvoke (env : Env) (_prompt : String) : Except JsError String :=
  env.openaiResp

/-- Modelled from the spec: `cognee.search` is external to src/; §4.5 requires
up to `limit` records of the named subject graph, deterministically ranked
(metric implementation-defined), so the model returns the first `limit`
records of that graph.  It throws when the backend is failing. -/
def cogneeSearch (env : Env) (w : World) (graphId : String) (_query : String)
    (limit : Nat) : Except JsError (List NodeRec) :=
  if env.cogneeFail then .error (.storeError "cognee search failed")
  else .ok ((w.graphs graphId).take limit)

/-- initializePatientGraph (src/functions/index.js lines 187-208): creates the
per-patient graph if absent; its own catch turns any Cognee failure into a
null result, leaving the store untouched. -/
def initPatientGraph (env : Env) (patientId : JSValue) (w : World) :
    Option String × World :=
  let graphId := "patient-" ++ jsTemplate patientId
  if env.cogneeFail then (none, w)
  else if ¬ w.created graphId then
    (some graphId,
     { w with created := fun k => if k = graphId then true else w.created k })
  else (some graphId, w)

/-- The structured `medicalData` document addToPatientGraph builds from the
run-state (src/functions/index.js lines 216-225). -/
def mkMedicalData (env : Env) (extracted_data diagnosis : JSValue)
    (messages : List Message) : JSValue :=
  .obj [
    ("timestamp", .str env.now),
    ("symptoms", jsOrDefault (optChain extracted_data "symptoms") (.arr [])),
    ("medications", jsOrDefault (optChain extracted_data "medications") (.arr [])),
    ("allergies", jsOrDefault (optChain extracted_data "allergies") (.arr [])),
    ("diagnosis", jsOrDefault (optChain diagnosis "diagnosis") (.str "")),
    ("treatment", jsOrDefault (optChain diagnosis "treatment") (.str "")),
    ("recommendations", jsOrDefault (optChain diagnosis "recommendations") (.str "")),
    ("raw_text",
      match messages.getLast? with
      | some m => jsOrDefault (.str m.content) (.str "")
      | none => .str "")]

/-- addToPatientGraph (src/functions/index.js lines 211-244): appends a
consultation node to the patient's Cognee graph under the key
`patient-${patientId}`, then appends the same document to the Firestore
`patients/{patientId}/history` backup.  Its catch swallows every failure, so a
Cognee failure skips both writes and a Firestore failure keeps the completed
Cognee write. -/
def addToPatientGraph (env : Env) (patientId : JSValue)
    (extracted_data diagnosis : JSValue) (messages : List Message)
    (w : World) : World :=
  let graphId := "patient-" ++ jsTemplate patientId
  let medicalData := mkMedicalData env extracted_data diagnosis messages
  if env.cogneeFail then w
  else
    let node : NodeRec :=
      { id := "consultation-" ++ toString env.nowMs,
        type := "medical_consultation",
        data := medicalData,
        metadata_patient_id := patientId,
        metadata_consultation_date := env.now }
    let w1 := { w with graphs := fun k => if k = graphId then w.graphs k ++ [node] else w.graphs k }
    if env.fsFail then w1
    else { w1 with hist := fun k =>
            if k = jsTemplate patientId then medicalData :: w1.hist k else w1.hist k }

/-- Formats the Cognee search results into the one-line-per-record context
block of getPatientContext; `data.symptoms.join` throws when a record's
symptoms are not an array. -/
def formatContextLines (results : List NodeRec) : Except JsError String := do
  let lines ← results.mapM (fun result => do
    let data := result.data
    let ts ← jsGet data "timestamp"
    let syms ← jsGet data "symptoms"
    let joined ←
      match syms with
      | .arr xs => pure (String.intercalate ", " (xs.map jsJoinElem))
      | .null => Except.error (.typeError "Cannot read properties of null (reading join)")
      | .undefined => Except.error (.typeError "Cannot read properties of undefined (reading join)")
      | _ => Except.error (.typeError "data.symptoms.join is not a function")
    let diag ← jsGet data "diagnosis"
    pure ("Consulta anterior (" ++ jsTemplate ts ++ "): Síntomas: " ++ joined ++
          ", Diagnóstico: " ++ jsTemplate diag))
  return String.intercalate "\n" lines

/-- getPatientContext (src/functions/index.js lines 247-273): searches the
patient's graph (limit 5) and formats the hits; its catch maps every failure
to the empty context. -/
def getPatientContext (env : Env) (patientId : JSValue) (currentSymptoms : String)
    (w : World) : String :=
  let graphId := "patient-" ++ jsTemplate patientId
  match cogneeSearch env w graphId currentSymptoms 5 with
  | .error _ => ""
  | .ok searchResults =>
    if searchResults.length > 0 then
      match formatContextLines searchResults with
      | .ok context => context
      | .error _ => ""
    else ""

/-- Shallow model of `JSON.stringify` (platform builtin; only used to
assemble the diagnosis prompt text, which the gateway oracle does not
inspect). -/
def jsonStringify : JSValue → String
  | .undefined => "null"
  | .null => "null"
  | .bool true => "true"
  | .bool false => "false"
  | .num q => qIntString q
  | .str s => "\"" ++ s ++ "\""
  | .arr xs =>
    "[" ++ String.intercalate "," (xs.attach.map fun x => jsonStringify x.1) ++ "]"
  | .obj fs =>
    "\x7b" ++ String.intercalate ","
      (fs.attach.map fun p => "\"" ++ p.1.1 ++ "\":" ++ jsonStringify p.1.2) ++ "\x7d"
decreasing_by
  · have hx := List.sizeOf_lt_of_mem x.2
    simp only [JSValue.arr.sizeOf_spec]
    omega
  · have h2 := List.sizeOf_lt_of_mem p.2
    have h1 : sizeOf p.1.2 < sizeOf p.1 := by
      obtain ⟨a, b⟩ := p.1
      simp only [Prod.mk.sizeOf_spec]
      omega
    simp only [JSValue.obj.sizeOf_spec]
    omega

/-- loadPrompt returns null on a missing/unreadable template; both call sites
throw when the result is falsy (`if (!prompt) throw new Error(...)`). -/
def requirePrompt (p : Option String) (errMsg : String) : Except JsError String :=
  match p with
  | none => .error (.jsError errMsg)
  | some s => if s = "" then .error (.jsError errMsg) else .ok s

/-- `state.messages[state.messages.length - 1].content`: reading `.content`
throws when the messages list is empty (the indexing produced undefined). -/
def lastContent (msgs : List Message) : Except JsError String :=
  match msgs.getLast? with
  | some m => .ok m.content
  | none => .error (.typeError "Cannot read properties of undefined (reading content)")

/-- The degraded output the extract step's catch substitutes. -/
def extractErrorMarker : JSValue :=
  .obj [("error", .str "No se pudo extraer datos estructurados")]

/-- The degraded output the diagnose step's catch substitutes. -/
def diagnosisErrorMarker : JSValue :=
  .obj [("error", .str "No se pudo generar diagnóstico estructurado")]

/-- The try-block of the extract step: strip fences, `JSON.parse`, validate
(any schema violation throws, and the violation list travels only in the
thrown error's message). -/
def extractTryBody (responseContent : String) : Except JsError JSValue := do
  let cleanedResponse := stripFences responseContent
  let extractedData ← jsonParse cleanedResponse
  let validation ← validateExtractionSchema extractedData
  if ¬ validation.isValid then
    Except.error (.jsError ("Schema validation failed: " ++
      String.intercalate ", " validation.errors))
  else return extractedData

/-- The try-block of the diagnose step. -/
def diagnoseTryBody (responseContent : String) : Except JsError JSValue := do
  let cleanedResponse := stripFences responseContent
  let diagnosisData ← jsonParse cleanedResponse
  let validation ← validateDiagnosisSchema diagnosisData
  if ¬ validation.isValid then
    Except.error (.jsError ("Diagnosis schema validation failed: " ++
      String.intercalate ", " validation.errors))
  else return diagnosisData

/-- The `extract` node (src/functions/index.js lines 314-345).  The prompt
load and the `geminiModel.invoke` call sit OUTSIDE the try/catch, so a missing
prompt or a gateway failure propagates out of the node; only the
parse/validate phase is caught and degraded to `extractErrorMarker`.  The node
performs no store writes, so the world passes through unchanged. -/
def extractNode (env : Env) (st : RunState) (w : World) :
    Except JsError RunState × World :=
  let result : Except JsError RunState := do
    let extractionPrompt ← requirePrompt env.extractPrompt "Failed to load extraction prompt"
    let content ← lastContent st.messages
    let formattedPrompt := replaceFirst extractionPrompt "{text}" content
    let response ← geminiInvoke env formattedPrompt
    match extractTryBody response with
    | .ok extractedData => pure { st with extracted_data := extractedData }
    | .error _ => pure { st with extracted_data := extractErrorMarker }
  (result, w)

/-- `v?.join(sep)`: undefined when the base is null/undefined, the joined
string on an array, a TypeError on anything else (no `join` method). -/
def jsOptJoin (v : JSValue) (sep : String) : Except JsError JSValue :=
  match v with
  | .null => .ok .undefined
  | .undefined => .ok .undefined
  | .arr xs => .ok (.str (String.intercalate sep (xs.map jsJoinElem)))
  | _ => .error (.typeError "join is not a function")

/-- The string value of `x || ''` where `x` is a string or undefined. -/
def jsStrOrEmpty : JSValue → String
  | .str s => s
  | _ => ""

/-- The `get_context` node (src/functions/index.js lines 348-366): empty
context when `patient_id` is falsy; otherwise initialize the patient graph,
join the current symptoms into a query and search; the node-level catch maps
ANY failure (graph init, malformed `extracted_data`, store query) to the empty
context.  World effects of the already-completed graph initialization persist
across the catch, as they do in JS. -/
def getContextNode (env : Env) (st : RunState) (w : World) :
    Except JsError RunState × World :=
  if ¬ st.patient_id.truthy then (.ok { st with cognee_context := "" }, w)
  else
    let (_, w1) := initPatientGraph env st.patient_id w
    match jsOptJoin (optChain st.extracted_data "symptoms") " " with
    | .error _ => (.ok { st with cognee_context := "" }, w1)
    | .ok joined =>
      let currentSymptoms := jsStrOrEmpty joined
      (.ok { st with cognee_context := getPatientContext env st.patient_id currentSymptoms w1 },
       w1)

/-- The `diagnose` node (src/functions/index.js lines 369-402).  Same shape as
extract: prompt load and the `openaiModel.invoke` call are OUTSIDE the
try/catch and propagate; parse/validate failures degrade to
`diagnosisErrorMarker`. -/
def diagnoseNode (env : Env) (st : RunState) (w : World) :
    Except JsError RunState × World :=
  let result : Except JsError RunState := do
    let context :=
      if st.cognee_context ≠ "" then
        "\n\nHistorial relevante del paciente:\n" ++ st.cognee_context
      else ""
    let diagnosisPrompt ← requirePrompt env.diagnosisPrompt "Failed to load diagnosis prompt"
    let content ← lastContent st.messages
    let formattedPrompt := replaceFirst diagnosisPrompt "{context}"
      ("Información extraída: " ++ jsonStringify st.extracted_data ++ context ++
       "\n\nMensaje del paciente: \"" ++ content ++ "\"")
    let response ← openaiInvoke env formattedPrompt
    match diagnoseTryBody response with
    | .ok diagnosisData => pure { st with diagnosis := diagnosisData }
    | .error _ => pure { st with diagnosis := diagnosisErrorMarker }
  (result, w)

/-- Modelled from the spec: the Firestore read backing drift detection
(`orderBy('timestamp','desc').limit(10)`) is external to src/; §4.6 step 4
asks for the up-to-10 most recent records newest-first, i.e. the first ten of
the newest-first history list. -/
def fsRecentHistory (env : Env) (w : World) (docKey : String) :
    Except JsError (List JSValue) :=
  if env.fsFail then .error (.storeError "firestore unavailable")
  else .ok ((w.hist docKey).take 10)

/-- The `detect_drift` node (src/functions/index.js lines 405-425): reads the
recent history of `state.patient_id || 'anonymous'`, runs detectDrift, and its
catch maps any failure to the empty flag list. -/
def detectDriftBody (env : Env) (st : RunState) (w : World) :
    Except JsError (List String) := do
  let previousResults ←
    fsRecentHistory env w (jsTemplate (jsOrDefault st.patient_id (.str "anonymous")))
  let driftResult ← detectDrift st.extracted_data previousResults
  pure driftResult.flags

def detectDriftNode (env : Env) (st : RunState) (w : World) :
    Except JsError RunState × World :=
  match detectDriftBody env st w with
  | .ok flags => (.ok { st with drift_flags := flags }, w)
  | .error _ => (.ok { st with drift_flags := [] }, w)

/-- The `save_to_graph` node (src/functions/index.js lines 428-444): a no-op
when `patient_id` is falsy, otherwise the best-effort persist (whose own catch
already swallows failures).  It returns the empty state delta. -/
def saveToGraphNode (env : Env) (st : RunState) (w : World) :
    Except JsError RunState × World :=
  if ¬ st.patient_id.truthy then (.ok st, w)
  else (.ok st, addToPatientGraph env st.patient_id st.extracted_data st.diagnosis st.messages w)

/-- The compiled linear pipeline
extract → get_context → diagnose → detect_drift → save_to_graph (the workflow
edges of createWorkflow).  A node-level exception aborts the remaining steps;
store effects already performed persist. -/
def runWorkflow (env : Env) (st : RunState) (w : World) :
    Except JsError RunState × World :=
  match extractNode env st w with
  | (.error e, w1) => (.error e, w1)
  | (.ok st1, w1) =>
    match getContextNode env st1 w1 with
    | (.error e, w2) => (.error e, w2)
    | (.ok st2, w2) =>
      match diagnoseNode env st2 w2 with
      | (.error e, w3) => (.error e, w3)
      | (.ok st3, w3) =>
        match detectDriftNode env st3 w3 with
        | (.error e, w4) => (.error e, w4)
        | (.ok st4, w4) => saveToGraphNode env st4 w4

/-- The metadata block of a successful response. -/
structure RespMetadata where
  request_id : String
  model_version : String
  prompt_version : String
  latency_ms : Nat
  timestamp : String
  input_type : String
  drift_detected : Bool
  drift_flags : List String

/-- The projected success response of processMessage (src/functions/index.js
lines 485-503); `success: true` is carried by the constructor choice of
`ProcessResult`. -/
structure SuccessResponse where
  patient_info : JSValue
  symptoms : JSValue
  motive : JSValue
  diagnosis : JSValue
  treatment : JSValue
  recommendations : JSValue
  metadata : RespMetadata

/-- The outcome of processMessage: the projected success object, or the
`\x7bresponse, success: false, error\x7d` failure object. -/
inductive ProcessResult where
  | success (r : SuccessResponse)
  | failure (response : String) (error : String)

def PROMPT_VERSIONS_EXTRACT : String := "extract_v2"
def PROMPT_VERSIONS_DIAGNOSIS : String := "diagnosis_v3"

/-- The projection of a completed run-state into the success response
(src/functions/index.js lines 485-503): only patient_info, symptoms, motive,
diagnosis, treatment, recommendations and metadata are exposed, each through
an `x?.field || default` read. -/
def successOf (env : Env) (result : RunState) : SuccessResponse :=
  { patient_info := jsOrDefault (optChain result.extracted_data "patient_info") (.obj []),
    symptoms := jsOrDefault (optChain result.extracted_data "symptoms") (.arr []),
    motive := jsOrDefault (optChain result.extracted_data "motive") (.str ""),
    diagnosis := jsOrDefault (optChain result.diagnosis "diagnosis") (.str ""),
    treatment := jsOrDefault (optChain result.diagnosis "treatment") (.str ""),
    recommendations := jsOrDefault (optChain result.diagnosis "recommendations") (.str ""),
    metadata := {
      request_id := env.requestId,
      model_version := "gpt-4",
      prompt_version := PROMPT_VERSIONS_EXTRACT ++ "," ++ PROMPT_VERSIONS_DIAGNOSIS,
      latency_ms := env.latencyMs,
      timestamp := env.now,
      input_type := "text",
      drift_detected := ¬ result.drift_flags.isEmpty,
      drift_flags := result.drift_flags } }

/-- The initial run-state processMessage builds for a request. -/
def initState (text : String) (patientId : JSValue) : RunState :=
  { createState with
    messages := [{ role := "user", content := text }],
    patient_id := patientId }

/-- processMessage (src/functions/index.js lines 458-512): build the initial
run-state, run the workflow, and either project the final state into the
response or (when an exception escaped the pipeline) return the fixed
user-facing failure object.  The MLflow logging call swallows its own errors
and does not affect the result, so it is not modelled. -/
def processMessage (env : Env) (w : World) (text : String)
    (patientId : JSValue := .null) : ProcessResult × World :=
  match runWorkflow env (initState text patientId) w with
  | (.error e, w') =>
    (.failure "Lo siento, hubo un error procesando tu mensaje. Por favor, intenta de nuevo."
      e.message, w')
  | (.ok result, w') => (.success (successOf env result), w')

theorem string_data_append (s t : String) : (s ++ t).data = s.data ++ t.data := by
  cases s; cases t; rfl

theorem string_append_cancel_left {p a b : String} (h : p ++ a = p ++ b) : a = b := by
  have hd : p.data ++ a.data = p.data ++ b.data := by
    rw [← string_data_append, ← string_data_append, h]
  have h2 : a.data = b.data := List.append_cancel_left hd
  cases a; cases b
  exact congrArg String.mk h2

theorem string_head_append (s t : String) (c : Char) (h : s.data.head? = some c) :
    (s ++ t).data.head? = some c := by
  rw [string_data_append]
  cases hs : s.data with
  | nil => rw [hs] at h; cases h
  | cons a as => rw [hs] at h; cases h; rfl

/-- Schema drift flags never coincide with the extract step's degraded error
message (their first characters differ). -/
theorem schemaDriftMsg_ne_extract_marker (errs : List String) :
    schemaDriftMsg errs ≠ "No se pudo extraer datos estructurados" := by
  intro h
  have h2 : (schemaDriftMsg errs).data.head? = some 'S' := by
    unfold schemaDriftMsg
    exact string_head_append _ _ _ rfl
  rw [h] at h2
  cases h2

/-- Variance drift flags never coincide with the extract step's degraded error
message either. -/
theorem varianceMsg_ne_extract_marker (c a : ℚ) :
    varianceMsg c a ≠ "No se pudo extraer datos estructurados" := by
  intro h
  have h2 : (varianceMsg c a).data.head? = some 'S' := by
    unfold varianceMsg
    exact string_head_append _ _ _
      (string_head_append _ _ _ (string_head_append _ _ _ rfl))
  rw [h] at h2
  cases h2

/-- Any flag emitted by detectDrift is a schema-validation flag or a variance
flag. -/
theorem detectDrift_flags_shape (current : JSValue) (prev : List JSValue) (r : DriftResult)
    (h : detectDrift current prev = .ok r) :
    ∀ f ∈ r.flags, (∃ errs, f = schemaDriftMsg errs) ∨ (∃ c a, f = varianceMsg c a) := by
  intro f hf
  unfold detectDrift at h
  cases hv : validateExtractionSchema current with
  | error e => rw [hv] at h; cases h
  | ok v =>
    rw [hv] at h
    cases hs : jsGet current "symptoms" with
    | error e => rw [hs] at h; cases h
    | ok syms =>
      rw [hs] at h
      by_cases hp : prev.length > 0
      · simp only [hp, if_true] at h
        cases ht : symptomCountSum prev with
        | error e => rw [ht] at h; cases h
        | ok total =>
          rw [ht] at h
          injection h with h
          subst h
          simp only [DriftResult.flags] at hf
          rw [List.mem_append] at hf
          rcases hf with hf | hf
          · split at hf
            · simp only [List.mem_singleton] at hf
              exact Or.inl ⟨v.errors, hf⟩
            · cases hf
          · split at hf
            · simp only [List.mem_singleton] at hf
              exact Or.inr ⟨_, _, hf⟩
            · cases hf
      · simp only [hp, if_false] at h
        injection h with h
        subst h
        simp only [DriftResult.flags, List.append_nil] at hf
        split at hf
        · simp only [List.mem_singleton] at hf
          exact Or.inl ⟨v.errors, hf⟩
        · cases hf

theorem except_bind_ok {α β ε : Type _} (a : α) (f : α → Except ε β) :
    (Except.ok a >>= f) = f a := rfl

theorem except_bind_error {α β ε : Type _} (e : ε) (f : α → Except ε β) :
    ((Except.error e : Except ε α) >>= f) = .error e := rfl

theorem requirePrompt_ok (p msg : String) (hp : p ≠ "") :
    requirePrompt (some p) msg = .ok p := by
  simp [requirePrompt, hp]

/-- The get_context step always returns normally: the context is empty when
the subject is absent or anything fails, and no other state field changes. -/
theorem getContextNode_shape (env : Env) (st : RunState) (w : World) :
    ∃ ctx w', getContextNode env st w = (.ok { st with cognee_context := ctx }, w') ∧
      (¬ st.patient_id.truthy → ctx = "" ∧ w' = w) ∧
      (env.cogneeFail = true → ctx = "") ∧
      (∀ e, jsOptJoin (optChain st.extracted_data "symptoms") " " = .error e → ctx = "") := by
  by_cases hpt : st.patient_id.truthy
  · cases hI : initPatientGraph env st.patient_id w with
    | mk g w1 =>
      cases hj : jsOptJoin (optChain st.extracted_data "symptoms") " " with
      | error e =>
        refine ⟨"", w1, ?_, fun h => absurd hpt h, fun _ => rfl, fun _ _ => rfl⟩
        unfold getContextNode
        rw [if_neg (fun h => h hpt), hI, hj]
      | ok joined =>
        refine ⟨getPatientContext env st.patient_id (jsStrOrEmpty joined) w1, w1,
          ?_, fun h => absurd hpt h, ?_, ?_⟩
        · unfold getContextNode
          rw [if_neg (fun h => h hpt), hI, hj]
        · intro hcf
          unfold getPatientContext cogneeSearch
          simp [hcf]
        · intro e he
          cases he
  · refine ⟨"", w, ?_, fun _ => ⟨rfl, rfl⟩, fun _ => rfl, fun _ _ => rfl⟩
    unfold getContextNode
    rw [if_pos hpt]

/-- The detect_drift step always returns normally, changes only drift_flags,
never touches the store, and every flag it records is a schema or variance
flag. -/
theorem detectDriftNode_shape (env : Env) (st : RunState) (w : World) :
    ∃ flags, detectDriftNode env st w = (.ok { st with drift_flags := flags }, w) ∧
      ∀ f ∈ flags, (∃ errs, f = schemaDriftMsg errs) ∨ (∃ c a, f = varianceMsg c a) := by
  unfold detectDriftNode
  cases hb : detectDriftBody env st w with
  | error e => exact ⟨[], rfl, by intro f hf; cases hf⟩
  | ok flags =>
    refine ⟨flags, rfl, ?_⟩
    unfold detectDriftBody at hb
    cases hr : fsRecentHistory env w (jsTemplate (jsOrDefault st.patient_id (.str "anonymous"))) with
    | error e => rw [hr] at hb; cases hb
    | ok previousResults =>
      rw [hr, except_bind_ok] at hb
      cases hd : detectDrift st.extracted_data previousResults with
      | error e => rw [hd, except_bind_error] at hb; cases hb
      | ok r =>
        rw [hd, except_bind_ok] at hb
        injection hb with hb
        subst hb
        exact detectDrift_flags_shape st.extracted_data previousResults r hd

/-- The save_to_graph step always returns the state unchanged; with a falsy
subject it is a complete no-op. -/
theorem saveToGraphNode_shape (env : Env) (st : RunState) (w : World) :
    ∃ w', saveToGraphNode env st w = (.ok st, w') ∧
      (¬ st.patient_id.truthy → w' = w) := by
  by_cases hpt : st.patient_id.truthy
  · refine ⟨addToPatientGraph env st.patient_id st.extracted_data st.diagnosis st.messages w,
      ?_, fun h => absurd hpt h⟩
    unfold saveToGraphNode
    rw [if_neg (fun h => h hpt)]
  · refine ⟨w, ?_, fun _ => rfl⟩
    unfold saveToGraphNode
    rw [if_pos hpt]

/-- The extracted_data the extract step stores for a given completion text:
the parsed-and-validated object, or the degraded marker. -/
def extractResultOf (content : String) : JSValue :=
  match extractTryBody content with
  | .ok d => d
  | .error _ => extractErrorMarker

/-- The diagnosis the diagnose step stores for a given completion text. -/
def diagnosisResultOf (content : String) : JSValue :=
  match diagnoseTryBody content with
  | .ok d => d
  | .error _ => diagnosisErrorMarker

/-- Running the extract step when the prompt loads, the messages list is
non-empty and the gateway call returns content: the step returns normally with
the parsed data, or the degraded marker when the try-block fails. -/
theorem extractNode_run (env : Env) (st : RunState) (w : World) (p content mtext : String)
    (hep : env.extractPrompt = some p) (hp : p ≠ "")
    (hm : lastContent st.messages = .ok mtext)
    (hg : env.geminiResp = .ok content) :
    extractNode env st w =
      (.ok { st with extracted_data := extractResultOf content }, w) := by
  unfold extractResultOf
  unfold extractNode geminiInvoke
  rw [hep, requirePrompt_ok p _ hp, except_bind_ok, hm, except_bind_ok, hg, except_bind_ok]
  cases extractTryBody content <;> rfl

/-- Running the diagnose step under the same conditions. -/
theorem diagnoseNode_run (env : Env) (st : RunState) (w : World) (q content mtext : String)
    (hdp : env.diagnosisPrompt = some q) (hq : q ≠ "")
    (hm : lastContent st.messages = .ok mtext)
    (ho : env.openaiResp = .ok content) :
    diagnoseNode env st w =
      (.ok { st with diagnosis := diagnosisResultOf content }, w) := by
  unfold diagnosisResultOf
  unfold diagnoseNode openaiInvoke
  rw [hdp, requirePrompt_ok q _ hq, except_bind_ok, hm, except_bind_ok, ho, except_bind_ok]
  cases diagnoseTryBody content <;> rfl

/-- Composition: with both prompts loadable and both gateway calls returning
content, the pipeline completes, the extract/diagnose outcomes are
`extractResultOf`/`diagnosisResultOf` of the respective completions, and every
drift flag is a schema or variance flag. -/
theorem runWorkflow_run (env : Env) (w : World) (text : String) (pid : JSValue)
    (p q content diagContent : String)
    (hep : env.extractPrompt = some p) (hp : p ≠ "")
    (hdp : env.diagnosisPrompt = some q) (hq : q ≠ "")
    (hg : env.geminiResp = .ok content)
    (ho : env.openaiResp = .ok diagContent) :
    ∃ ctx flags w',
      runWorkflow env (initState text pid) w =
        (.ok { messages := [{ role := "user", content := text }],
               extracted_data := extractResultOf content,
               diagnosis := diagnosisResultOf diagContent,
               patient_id := pid,
               cognee_context := ctx,
               transcription := "",
               drift_flags := flags }, w') ∧
      (∀ f ∈ flags, (∃ errs, f = schemaDriftMsg errs) ∨ (∃ c a, f = varianceMsg c a)) := by
  have h1 := extractNode_run env (initState text pid) w p content text hep hp rfl hg
  obtain ⟨ctx, w1, h2, -, -, -⟩ :=
    getContextNode_shape env { initState text pid with extracted_data := extractResultOf content } w
  have h3 := diagnoseNode_run env
    { initState text pid with
      extracted_data := extractResultOf content,
      cognee_context := ctx }
    w1 q diagContent text hdp hq rfl ho
  obtain ⟨flags, h4, hflags⟩ :=
    detectDriftNode_shape env
      { initState text pid with
        extracted_data := extractResultOf content,
        cognee_context := ctx,
        diagnosis := diagnosisResultOf diagContent } w1
  obtain ⟨w2, h5, -⟩ :=
    saveToGraphNode_shape env
      { initState text pid with
        extracted_data := extractResultOf content,
        cognee_context := ctx,
        diagnosis := diagnosisResultOf diagContent,
        drift_flags := flags } w1
  refine ⟨ctx, flags, w2, ?_, hflags⟩
  unfold runWorkflow
  simp only [initState, createState] at h1 h2 h3 h4 h5 ⊢
  rw [h1]
  simp only []
  rw [h2]
  simp only []
  rw [h3]
  simp only []
  rw [h4]
  simp only []
  rw [h5]

/-- A completed pipeline yields the projected success response. -/
theorem processMessage_ok (env : Env) (w : World) (text : String) (pid : JSValue)
    (st : RunState) (w' : World)
    (hw : runWorkflow env (initState text pid) w = (.ok st, w')) :
    processMessage env w text pid = (.success (successOf env st), w') := by
  unfold processMessage
  rw [hw]

/-- Claim C2 (counterexample): the validators are not total — on null (or
undefined) input the very first property read throws a TypeError, so "never
throws for every input value including null and undefined" is false. -/
theorem c2_counterexample :
    validateExtractionSchema JSValue.null =
      .error (.typeError "Cannot read properties of null (reading patient_info)") ∧
    validateExtractionSchema JSValue.undefined =
      .error (.typeError "Cannot read properties of undefined (reading patient_info)") ∧
    validateDiagnosisSchema JSValue.null =
      .error (.typeError "Cannot read properties of null (reading diagnosis)") :=
  ⟨rfl, rfl, rfl⟩

/-- Claim C2 (amended): on every input other than null/undefined, both
validators return normally, and the result lists every violated field — each
check contributes its message independently of the others. -/
theorem c2_total_validator (data : JSValue) (h1 : data ≠ .null) (h2 : data ≠ .undefined) :
    (∃ r, validateExtractionSchema data = .ok r ∧
      r.errors = pinfoErrors (getPropD data "patient_info") ++
                 symptomErrors (getPropD data "symptoms") ++
                 motiveErrors (getPropD data "motive") ∧
      r.isValid = r.errors.isEmpty ∧
      (¬ (getPropD data "patient_info").truthy → "Missing patient_info" ∈ r.errors) ∧
      (¬ (getPropD data "symptoms").isArray → "symptoms must be array" ∈ r.errors) ∧
      ((getPropD data "motive").typeof ≠ "string" → "motive must be string" ∈ r.errors)) ∧
    (∃ r, validateDiagnosisSchema data = .ok r ∧
      r.errors = diagnosisFieldErrors (getPropD data "diagnosis") (getPropD data "treatment")
        (getPropD data "recommendations") ∧
      r.isValid = r.errors.isEmpty ∧
      ((getPropD data "diagnosis").typeof ≠ "string" → "diagnosis must be string" ∈ r.errors) ∧
      ((getPropD data "treatment").typeof ≠ "string" → "treatment must be string" ∈ r.errors) ∧
      ((getPropD data "recommendations").typeof ≠ "string" →
        "recommendations must be string" ∈ r.errors)) := by
  constructor
  · refine ⟨_, validateExtractionSchema_ok data h1 h2, rfl, rfl, ?_, ?_, ?_⟩
    · intro h; simp [pinfoErrors, h]
    · intro h; simp [symptomErrors, h]
    · intro h; simp [motiveErrors, h]
  · refine ⟨_, validateDiagnosisSchema_ok data h1 h2, rfl, rfl, ?_, ?_, ?_⟩
    · intro h; simp [diagnosisFieldErrors, h]
    · intro h; simp [diagnosisFieldErrors, h]
    · intro h; simp [diagnosisFieldErrors, h]

/-- Witness for C2's amended theorem at the empty object. -/
theorem c2_total_validator_witness :
    (∃ r, validateExtractionSchema (JSValue.obj []) = .ok r ∧
      r.errors = pinfoErrors (getPropD (JSValue.obj []) "patient_info") ++
                 symptomErrors (getPropD (JSValue.obj []) "symptoms") ++
                 motiveErrors (getPropD (JSValue.obj []) "motive") ∧
      r.isValid = r.errors.isEmpty ∧
      (¬ (getPropD (JSValue.obj []) "patient_info").truthy → "Missing patient_info" ∈ r.errors) ∧
      (¬ (getPropD (JSValue.obj []) "symptoms").isArray → "symptoms must be array" ∈ r.errors) ∧
      ((getPropD (JSValue.obj []) "motive").typeof ≠ "string" → "motive must be string" ∈ r.errors)) ∧
    (∃ r, validateDiagnosisSchema (JSValue.obj []) = .ok r ∧
      r.errors = diagnosisFieldErrors (getPropD (JSValue.obj []) "diagnosis")
        (getPropD (JSValue.obj []) "treatment") (getPropD (JSValue.obj []) "recommendations") ∧
      r.isValid = r.errors.isEmpty ∧
      ((getPropD (JSValue.obj []) "diagnosis").typeof ≠ "string" →
        "diagnosis must be string" ∈ r.errors) ∧
      ((getPropD (JSValue.obj []) "treatment").typeof ≠ "string" →
        "treatment must be string" ∈ r.errors) ∧
      ((getPropD (JSValue.obj []) "recommendations").typeof ≠ "string" →
        "recommendations must be string" ∈ r.errors)) :=
  c2_total_validator (.obj []) (fun h => JSValue.noConfusion h) (fun h => JSValue.noConfusion h)

/-- Claim C8: every extraction input object without a patient_info field
validates to isValid = false with "Missing patient_info" among the errors. -/
theorem c8_missing_patient_info (fields : List (String × JSValue))
    (h : objLookup fields "patient_info" = none) :
    ∃ r, validateExtractionSchema (.obj fields) = .ok r ∧
      r.isValid = false ∧ "Missing patient_info" ∈ r.errors := by
  have hpi : getPropD (.obj fields) "patient_info" = .undefined := by
    simp [getPropD, h]
  have hv := validateExtractionSchema_ok (.obj fields)
    (fun h => JSValue.noConfusion h) (fun h => JSValue.noConfusion h)
  rw [hpi] at hv
  refine ⟨_, hv, ?_, ?_⟩
  · simp [pinfoErrors, JSValue.truthy]
  · simp [pinfoErrors, JSValue.truthy]

/-- Witness for C8 at the empty object. -/
theorem c8_missing_patient_info_witness :
    ∃ r, validateExtractionSchema (.obj []) = .ok r ∧
      r.isValid = false ∧ "Missing patient_info" ∈ r.errors :=
  c8_missing_patient_info [] rfl

/-- Claim C9: the validators are deterministic and side-effect-free — two
calls on the same input produce structurally identical results (the embedding
is a pure function of the input, so neither call can mutate the argument or
any other state). -/
theorem c9_validator_deterministic (d : JSValue) (r1 r2 s1 s2 : Except JsError VResult)
    (h1 : validateExtractionSchema d = r1) (h2 : validateExtractionSchema d = r2)
    (h3 : validateDiagnosisSchema d = s1) (h4 : validateDiagnosisSchema d = s2) :
    r1 = r2 ∧ s1 = s2 :=
  ⟨h1.symm.trans h2, h3.symm.trans h4⟩

/-- Witness for C9 at the empty object. -/
theorem c9_validator_deterministic_witness :
    (Except.ok (VResult.mk false
        ["Missing patient_info", "symptoms must be array", "motive must be string"])
      : Except JsError VResult) =
    .ok (VResult.mk false
        ["Missing patient_info", "symptoms must be array", "motive must be string"]) ∧
    (Except.ok (VResult.mk false
        ["diagnosis must be string", "treatment must be string", "recommendations must be string"])
      : Except JsError VResult) =
    .ok (VResult.mk false
        ["diagnosis must be string", "treatment must be string",
         "recommendations must be string"]) :=
  c9_validator_deterministic (.obj []) _ _ _ _ rfl rfl rfl rfl

/-- The full error list of the extraction validator on a readable input. -/
def extractionErrs (data : JSValue) : List String :=
  pinfoErrors (getPropD data "patient_info") ++
  symptomErrors (getPropD data "symptoms") ++
  motiveErrors (getPropD data "motive")

/-- The (zero- or one-element) schema part of the drift flag list. -/
def schemaFlagsOf (data : JSValue) : List String :=
  if ¬ (extractionErrs data).isEmpty then [schemaDriftMsg (extractionErrs data)] else []

/-- Claim C3: with an empty window, hasDrift is driven solely by schema
validation of the current extraction and the flags carry no variance entry;
with a non-empty window of mean M and current count C, a variance flag is
recorded iff |C − M| > 3 strictly. -/
theorem c3_drift_detector (current : JSValue) (prev : List JSValue) (r : DriftResult)
    (h : detectDrift current prev = .ok r) :
    (prev = [] →
      r.flags = schemaFlagsOf current ∧
      r.hasDrift = !(extractionErrs current).isEmpty) ∧
    (prev ≠ [] → ∀ total, symptomCountSum prev = .ok total →
      (|jsCountQ (getPropD current "symptoms") - total / (prev.length : ℚ)| > 3 →
        r.flags = schemaFlagsOf current ++
          [varianceMsg (jsCountQ (getPropD current "symptoms")) (total / (prev.length : ℚ))]) ∧
      (¬ |jsCountQ (getPropD current "symptoms") - total / (prev.length : ℚ)| > 3 →
        r.flags = schemaFlagsOf current)) := by
  have hn : current ≠ .null := by
    intro hc; subst hc
    rw [show detectDrift JSValue.null prev =
      .error (.typeError "Cannot read properties of null (reading patient_info)") from rfl] at h
    cases h
  have hu : current ≠ .undefined := by
    intro hc; subst hc
    rw [show detectDrift JSValue.undefined prev =
      .error (.typeError "Cannot read properties of undefined (reading patient_info)") from rfl] at h
    cases h
  constructor
  · intro hnil
    subst hnil
    have hchar := detectDrift_ok current [] 0 hn hu rfl
    rw [h] at hchar
    injection hchar with hchar
    subst hchar
    constructor
    · simp [schemaFlagsOf, extractionErrs]
    · simp only [List.length_nil, gt_iff_lt, lt_self_iff_false, if_false, List.append_nil,
        extractionErrs]
      generalize (pinfoErrors (getPropD current "patient_info") ++
        symptomErrors (getPropD current "symptoms") ++
        motiveErrors (getPropD current "motive")).isEmpty = b
      cases b <;> simp
  · intro hne total hsum
    have hchar := detectDrift_ok current prev total hn hu hsum
    rw [h] at hchar
    injection hchar with hchar
    subst hchar
    have hlen : prev.length > 0 := List.length_pos.mpr hne
    constructor
    · intro hv
      simp [hlen, hv, schemaFlagsOf, extractionErrs]
    · intro hv
      simp [hlen, hv, schemaFlagsOf, extractionErrs]

/-- A schema-valid extraction with 7 symptoms (the spec's running example). -/
def curSeven : JSValue :=
  .obj [("patient_info", .obj [("name", .str "Ana"), ("age", .num 30), ("id", .null)]),
        ("symptoms", .arr [.str "a", .str "b", .str "c", .str "d", .str "e", .str "f", .str "g"]),
        ("motive", .str "control")]

/-- The same extraction with 5 symptoms. -/
def curFive : JSValue :=
  .obj [("patient_info", .obj [("name", .str "Ana"), ("age", .num 30), ("id", .null)]),
        ("symptoms", .arr [.str "a", .str "b", .str "c", .str "d", .str "e"]),
        ("motive", .str "control")]

/-- A window whose symptom counts are [2, 3, 4] (mean 3). -/
def prevWindow : List JSValue :=
  [.obj [("symptoms", .arr [.str "a", .str "b"])],
   .obj [("symptoms", .arr [.str "a", .str "b", .str "c"])],
   .obj [("symptoms", .arr [.str "a", .str "b", .str "c", .str "d"])]]

theorem curSeven_count : jsCountQ (getPropD curSeven "symptoms") = ((7:ℕ):ℚ) := rfl

theorem prevWindow_sum : symptomCountSum prevWindow = .ok 9 := by
  simp [symptomCountSum, prevWindow, jsGet, getPropD, objLookup, jsCountQ, jsOptLength, optChain]
  norm_num [except_bind_ok]

theorem prevWindow_mean_dist_seven :
    |jsCountQ (getPropD curSeven "symptoms") - 9 / ((prevWindow.length : ℕ) : ℚ)| > 3 := by
  rw [curSeven_count, show prevWindow.length = 3 from rfl]
  norm_num

/-- The spec's example: counts [2,3,4] (mean 3) against current count 7 yields
exactly the variance flag (|7 − 3| = 4 > 3). -/
theorem detectDrift_window_example : detectDrift curSeven prevWindow =
    .ok ⟨true, [varianceMsg (jsCountQ (getPropD curSeven "symptoms"))
      (9 / ((prevWindow.length : ℕ) : ℚ))]⟩ := by
  rw [detectDrift_ok curSeven prevWindow 9 (fun h => JSValue.noConfusion h)
    (fun h => JSValue.noConfusion h) prevWindow_sum]
  simp only [show pinfoErrors (getPropD curSeven "patient_info") = [] from rfl,
    show symptomErrors (getPropD curSeven "symptoms") = [] from rfl,
    show motiveErrors (getPropD curSeven "motive") = [] from rfl,
    List.append_nil, List.nil_append, List.isEmpty_nil]
  rw [if_pos (show prevWindow.length > 0 by decide), if_pos prevWindow_mean_dist_seven]
  simp

theorem prevWindow_mean_dist_five :
    ¬ |jsCountQ (getPropD curFive "symptoms") - 9 / ((prevWindow.length : ℕ) : ℚ)| > 3 := by
  rw [show jsCountQ (getPropD curFive "symptoms") = ((5:ℕ):ℚ) from rfl,
    show prevWindow.length = 3 from rfl]
  norm_num

/-- The spec's other example: current count 5 against mean 3 yields no flag
(|5 − 3| = 2 ≤ 3). -/
theorem detectDrift_window_no_flag : detectDrift curFive prevWindow = .ok ⟨false, []⟩ := by
  rw [detectDrift_ok curFive prevWindow 9 (fun h => JSValue.noConfusion h)
    (fun h => JSValue.noConfusion h) prevWindow_sum]
  simp only [show pinfoErrors (getPropD curFive "patient_info") = [] from rfl,
    show symptomErrors (getPropD curFive "symptoms") = [] from rfl,
    show motiveErrors (getPropD curFive "motive") = [] from rfl,
    List.append_nil, List.nil_append, List.isEmpty_nil]
  rw [if_pos (show prevWindow.length > 0 by decide), if_neg prevWindow_mean_dist_five]
  simp

/-- Witness for C3 at the 7-symptom extraction against the [2,3,4] window. -/
theorem c3_drift_detector_witness :
    (prevWindow = [] →
      (DriftResult.mk true [varianceMsg (jsCountQ (getPropD curSeven "symptoms"))
        (9 / ((prevWindow.length : ℕ) : ℚ))]).flags = schemaFlagsOf curSeven ∧
      (DriftResult.mk true [varianceMsg (jsCountQ (getPropD curSeven "symptoms"))
        (9 / ((prevWindow.length : ℕ) : ℚ))]).hasDrift = !(extractionErrs curSeven).isEmpty) ∧
    (prevWindow ≠ [] → ∀ total, symptomCountSum prevWindow = .ok total →
      (|jsCountQ (getPropD curSeven "symptoms") - total / (prevWindow.length : ℚ)| > 3 →
        (DriftResult.mk true [varianceMsg (jsCountQ (getPropD curSeven "symptoms"))
          (9 / ((prevWindow.length : ℕ) : ℚ))]).flags = schemaFlagsOf curSeven ++
          [varianceMsg (jsCountQ (getPropD curSeven "symptoms"))
            (total / (prevWindow.length : ℚ))]) ∧
      (¬ |jsCountQ (getPropD curSeven "symptoms") - total / (prevWindow.length : ℚ)| > 3 →
        (DriftResult.mk true [varianceMsg (jsCountQ (getPropD curSeven "symptoms"))
          (9 / ((prevWindow.length : ℕ) : ℚ))]).flags = schemaFlagsOf curSeven)) :=
  c3_drift_detector curSeven prevWindow
    ⟨true, [varianceMsg (jsCountQ (getPropD curSeven "symptoms"))
      (9 / ((prevWindow.length : ℕ) : ℚ))]⟩ detectDrift_window_example

/-- A store with no graphs and no history. -/
def emptyWorld : World :=
  { created := fun _ => false, graphs := fun _ => [], hist := fun _ => [] }

/-- A well-formed extraction completion. -/
def goodExtractionJSON : String :=
  "\x7b\"patient_info\": \x7b\"name\": \"Ana\", \"age\": 30, \"id\": null\x7d, \"symptoms\": [\"tos\"], \"motive\": \"control\"\x7d"

/-- A well-formed diagnosis completion. -/
def goodDiagnosisJSON : String :=
  "\x7b\"diagnosis\": \"gripe\", \"treatment\": \"reposo\", \"recommendations\": \"hidratacion\"\x7d"

/-- A benign oracle: prompts load, both model calls return well-formed JSON,
both stores are healthy. -/
def baseEnv : Env :=
  { extractPrompt := some "Extrae: {text}",
    diagnosisPrompt := some "Diagnostica: {context}",
    geminiResp := .ok goodExtractionJSON,
    openaiResp := .ok goodDiagnosisJSON,
    cogneeFail := false,
    fsFail := false,
    now := "2024-06-01T00:00:00.000Z",
    nowMs := 1717200000000,
    requestId := "req_1",
    latencyMs := 42 }

/-- A run-state for a request without a subject id. -/
def stNoSubject : RunState := initState "hola" .null

/-- Claim C6: a run without a subject_id performs no persistence side effects —
the save_to_graph step leaves both the Cognee graphs and the Firestore history
exactly as they were. -/
theorem c6_absent_subject_no_persistence (env : Env) (st : RunState) (w : World)
    (h : st.patient_id = .null) :
    saveToGraphNode env st w = (.ok st, w) := by
  unfold saveToGraphNode
  rw [if_pos]
  rw [h]
  exact fun hc => by cases hc

/-- Witness for C6. -/
theorem c6_absent_subject_no_persistence_witness :
    saveToGraphNode baseEnv stNoSubject emptyWorld = (.ok stNoSubject, emptyWorld) :=
  c6_absent_subject_no_persistence baseEnv stNoSubject emptyWorld rfl

/-- Claim C7: the get_context step never lets an error escape — it always
returns normally, with an empty context when subject_id is absent, when the
memory backend fails at initialization/query time, or when extracted_data is
malformed (its symptoms do not support join); all other state fields pass
through unchanged. -/
theorem c7_get_context_swallows (env : Env) (st : RunState) (w : World) :
    ∃ ctx w', getContextNode env st w = (.ok { st with cognee_context := ctx }, w') ∧
      (st.patient_id = .null → ctx = "" ∧ w' = w) ∧
      (env.cogneeFail = true → ctx = "") ∧
      (∀ e, jsOptJoin (optChain st.extracted_data "symptoms") " " = .error e → ctx = "") := by
  obtain ⟨ctx, w', h1, h2, h3, h4⟩ := getContextNode_shape env st w
  refine ⟨ctx, w', h1, ?_, h3, h4⟩
  intro hn
  apply h2
  rw [hn]
  exact fun hc => by cases hc

/-- Witness for C7. -/
theorem c7_get_context_swallows_witness :
    ∃ ctx w', getContextNode baseEnv stNoSubject emptyWorld =
        (.ok { stNoSubject with cognee_context := ctx }, w') ∧
      (stNoSubject.patient_id = .null → ctx = "" ∧ w' = emptyWorld) ∧
      (baseEnv.cogneeFail = true → ctx = "") ∧
      (∀ e, jsOptJoin (optChain stNoSubject.extracted_data "symptoms") " " = .error e →
        ctx = "") :=
  c7_get_context_swallows baseEnv stNoSubject emptyWorld

/-- Every node stored in a Cognee graph sits under the key derived from its
own subject: the storage key (not query-time filtering) carries the
isolation. -/
def WellKeyed (w : World) : Prop :=
  ∀ k n, n ∈ w.graphs k → k = "patient-" ++ jsTemplate n.metadata_patient_id

/-- One persist operation as issued by the save_to_graph step. -/
structure SaveOp where
  patientId : JSValue
  extracted_data : JSValue
  diagnosis : JSValue
  messages : List Message

/-- An arbitrary interleaving of persist operations. -/
def runSaves (env : Env) (ops : List SaveOp) (w : World) : World :=
  ops.foldl
    (fun w op => addToPatientGraph env op.patientId op.extracted_data op.diagnosis op.messages w)
    w

theorem addToPatientGraph_wellKeyed (env : Env) (pid ed diag : JSValue)
    (msgs : List Message) (w : World) (hw : WellKeyed w) :
    WellKeyed (addToPatientGraph env pid ed diag msgs w) := by
  intro k n hn
  unfold addToPatientGraph at hn
  by_cases hc : env.cogneeFail = true
  · simp only [hc, if_true] at hn
    exact hw k n hn
  · by_cases hk : k = "patient-" ++ jsTemplate pid
    · by_cases hf : env.fsFail = true
      · simp [hc, hf, hk] at hn
        rcases hn with hn | hn
        · rw [hk]; exact hw _ n hn
        · subst hn; rw [hk]
      · simp [hc, hf, hk] at hn
        rcases hn with hn | hn
        · rw [hk]; exact hw _ n hn
        · subst hn; rw [hk]
    · by_cases hf : env.fsFail = true
      · simp [hc, hf, hk] at hn
        exact hw _ n hn
      · simp [hc, hf, hk] at hn
        exact hw _ n hn

theorem runSaves_wellKeyed (env : Env) (ops : List SaveOp) (w : World) (hw : WellKeyed w) :
    WellKeyed (runSaves env ops w) := by
  induction ops generalizing w with
  | nil => exact hw
  | cons op ops ih =>
    exact ih _ (addToPatientGraph_wellKeyed env op.patientId op.extracted_data op.diagnosis
      op.messages w hw)

/-- Claim C5: after any sequence of persist operations over a well-keyed
store, a Cognee query for subject A returns only records stored under A's own
key — in particular never a record written for a different subject B.  The
query reads exactly one graph (`cogneeSearch` consults only
`w.graphs ("patient-" ++ A)`), so the isolation is enforced by the storage key
rather than by any filtering of results. -/
theorem c5_memory_isolation (env : Env) (ops : List SaveOp) (w0 : World)
    (hw : WellKeyed w0) (A B : String) (hAB : A ≠ B)
    (query : String) (limit : Nat) (ns : List NodeRec)
    (hs : cogneeSearch env (runSaves env ops w0) ("patient-" ++ A) query limit = .ok ns) :
    ∀ n ∈ ns, jsTemplate n.metadata_patient_id = A ∧ n.metadata_patient_id ≠ .str B := by
  intro n hn
  have hwk : WellKeyed (runSaves env ops w0) := runSaves_wellKeyed env ops w0 hw
  unfold cogneeSearch at hs
  by_cases hc : env.cogneeFail
  · rw [if_pos hc] at hs
    cases hs
  · rw [if_neg hc] at hs
    injection hs with hs
    subst hs
    have hmem : n ∈ (runSaves env ops w0).graphs ("patient-" ++ A) :=
      List.mem_of_mem_take hn
    have hkey := hwk _ n hmem
    have hA : jsTemplate n.metadata_patient_id = A := (string_append_cancel_left hkey).symm
    refine ⟨hA, ?_⟩
    intro hB
    rw [hB] at hA
    exact hAB hA.symm

/-- A persist operation for subject "A". -/
def saveOpA : SaveOp :=
  { patientId := .str "A",
    extracted_data := .obj [("symptoms", .arr [.str "tos"])],
    diagnosis := .obj [("diagnosis", .str "gripe"), ("treatment", .str "reposo"),
      ("recommendations", .str "agua")],
    messages := [{ role := "user", content := "hola" }] }

/-- A persist operation for subject "B". -/
def saveOpB : SaveOp :=
  { patientId := .str "B",
    extracted_data := .obj [("symptoms", .arr [.str "fiebre"])],
    diagnosis := .obj [("diagnosis", .str "resfriado"), ("treatment", .str "suero"),
      ("recommendations", .str "descanso")],
    messages := [{ role := "user", content := "buenas" }] }

/-- The node the persist of saveOpA stores under subject "A". -/
def nodeA : NodeRec :=
  { id := "consultation-" ++ toString baseEnv.nowMs,
    type := "medical_consultation",
    data := mkMedicalData baseEnv saveOpA.extracted_data saveOpA.diagnosis saveOpA.messages,
    metadata_patient_id := .str "A",
    metadata_consultation_date := baseEnv.now }

/-- Witness for C5: after saves for "A" and "B", the record the query for "A"
returns belongs to "A" and is not a "B" record. -/
theorem c5_memory_isolation_witness :
    jsTemplate nodeA.metadata_patient_id = "A" ∧ nodeA.metadata_patient_id ≠ .str "B" :=
  c5_memory_isolation baseEnv [saveOpA, saveOpB] emptyWorld
    (by intro k n hn; cases hn) "A" "B" (by decide) "tos" 5 _ rfl nodeA
    (show nodeA ∈ ([nodeA] : List NodeRec) from List.mem_cons_self nodeA [])

/-- The benign oracle with the extraction model call throwing a ProviderError. -/
def envProviderErr : Env := { baseEnv with geminiResp := .error (.providerError "boom") }

/-- The benign oracle with an extraction completion that is not JSON. -/
def envBadJson : Env := { baseEnv with geminiResp := .ok "not json" }

/-- The benign oracle with parseable but schema-invalid completions on both
calls. -/
def envBothBad : Env :=
  { baseEnv with
    geminiResp := .ok "\x7b\x7d",
    openaiResp := .ok "\x7b\"diagnosis\": 5\x7d" }

/-- Claim C1 (counterexample): when the extraction model call throws a
ProviderError, the pipeline does NOT complete — the exception escapes the
extract step (the gateway call sits outside its try/catch), aborts the run,
and processMessage returns the success:false failure object; extracted_data is
never degraded and diagnose never runs. -/
theorem c1_counterexample :
    (processMessage envProviderErr emptyWorld "hola" .null).1 =
      .failure "Lo siento, hubo un error procesando tu mensaje. Por favor, intenta de nuevo."
        "boom" ∧
    ∀ r, (processMessage envProviderErr emptyWorld "hola" .null).1 ≠ .success r := by
  constructor
  · rfl
  · intro r h
    rw [show (processMessage envProviderErr emptyWorld "hola" .null).1 =
      ProcessResult.failure
        "Lo siento, hubo un error procesando tu mensaje. Por favor, intenta de nuevo."
        "boom" from rfl] at h
    cases h

/-- Claim C1 (amended): the degrade-not-abort policy holds for parse errors
and validation failures — the extract step sets extracted_data to the error
marker and the pipeline still completes with the diagnose step running on the
degraded data — but a provider error from the model gateway propagates and
aborts the run (reported as a success:false response, per the
counterexample). -/
theorem c1_degrade_on_parse_or_validation (env : Env) (w : World) (text : String)
    (pid : JSValue) (p q content diagContent : String)
    (hep : env.extractPrompt = some p) (hp : p ≠ "")
    (hdp : env.diagnosisPrompt = some q) (hq : q ≠ "")
    (hg : env.geminiResp = .ok content) (ho : env.openaiResp = .ok diagContent)
    (herr : ∃ e, extractTryBody content = .error e) :
    ∃ ctx flags w',
      runWorkflow env (initState text pid) w =
        (.ok { messages := [{ role := "user", content := text }],
               extracted_data := extractErrorMarker,
               diagnosis := diagnosisResultOf diagContent,
               patient_id := pid,
               cognee_context := ctx,
               transcription := "",
               drift_flags := flags }, w') ∧
      (∃ r, (processMessage env w text pid).1 = .success r) := by
  obtain ⟨e, he⟩ := herr
  have hres : extractResultOf content = extractErrorMarker := by
    unfold extractResultOf
    rw [he]
  obtain ⟨ctx, flags, w', hw, -⟩ :=
    runWorkflow_run env w text pid p q content diagContent hep hp hdp hq hg ho
  rw [hres] at hw
  have hpm := processMessage_ok env w text pid _ w' hw
  exact ⟨ctx, flags, w', hw, ⟨_, by rw [hpm]⟩⟩

/-- Witness for C1's amended theorem: the gateway answers with non-JSON text,
the step degrades and the pipeline completes successfully. -/
theorem c1_degrade_witness :
    ∃ ctx flags w',
      runWorkflow envBadJson (initState "hola" .null) emptyWorld =
        (.ok { messages := [{ role := "user", content := "hola" }],
               extracted_data := extractErrorMarker,
               diagnosis := diagnosisResultOf goodDiagnosisJSON,
               patient_id := .null,
               cognee_context := ctx,
               transcription := "",
               drift_flags := flags }, w') ∧
      (∃ r, (processMessage envBadJson emptyWorld "hola" .null).1 = .success r) :=
  c1_degrade_on_parse_or_validation envBadJson emptyWorld "hola" .null
    "Extrae: {text}" "Diagnostica: {context}" "not json" goodDiagnosisJSON
    rfl (by decide) rfl (by decide) rfl rfl
    ⟨.parseError "Unexpected token in JSON", rfl⟩

/-- The benign oracle with an extraction completion whose only violation is a
non-string motive. -/
def envBadMotive : Env :=
  { baseEnv with
    geminiResp := .ok "\x7b\"patient_info\": \x7b\"name\": \"Ana\", \"age\": 30, \"id\": null\x7d, \"symptoms\": [\"tos\"], \"motive\": 5\x7d" }

/-- Claim C4 (counterexample): two validation failures with different
field-level violation lists degrade to the SAME fixed error marker — the
violation list is not retained anywhere in the degraded output. -/
theorem c4_counterexample :
    extractNode envBothBad (initState "hola" .null) emptyWorld =
      (.ok { initState "hola" .null with extracted_data := extractErrorMarker }, emptyWorld) ∧
    extractNode envBadMotive (initState "hola" .null) emptyWorld =
      (.ok { initState "hola" .null with extracted_data := extractErrorMarker }, emptyWorld) ∧
    validateExtractionSchema (.obj []) =
      .ok (VResult.mk false
        ["Missing patient_info", "symptoms must be array", "motive must be string"]) ∧
    validateExtractionSchema
      (.obj [("patient_info", .obj [("name", .str "Ana"), ("age", .num 30), ("id", .null)]),
             ("symptoms", .arr [.str "tos"]), ("motive", .num 5)]) =
      .ok (VResult.mk false ["motive must be string"]) ∧
    (["Missing patient_info", "symptoms must be array", "motive must be string"] ≠
      ["motive must be string"]) ∧
    extractErrorMarker = .obj [("error", .str "No se pudo extraer datos estructurados")] :=
  ⟨rfl, rfl, rfl, rfl, by decide, rfl⟩

/-- Claim C4 (amended): on a schema-validation failure the step's output is
degraded to the fixed error marker; the specific violation list travels only
in the thrown error's message (logged to the console) and is NOT retained in
the degraded output or anywhere in the run-state. -/
theorem c4_degraded_output_fixed (env : Env) (st : RunState) (w : World)
    (p q econtent dcontent mtext : String) (ev dv : JSValue) (er dr : VResult)
    (hep : env.extractPrompt = some p) (hp : p ≠ "")
    (hdp : env.diagnosisPrompt = some q) (hq : q ≠ "")
    (hm : lastContent st.messages = .ok mtext)
    (hg : env.geminiResp = .ok econtent) (ho : env.openaiResp = .ok dcontent)
    (heparse : jsonParse (stripFences econtent) = .ok ev)
    (heval : validateExtractionSchema ev = .ok er) (hebad : er.isValid = false)
    (hdparse : jsonParse (stripFences dcontent) = .ok dv)
    (hdval : validateDiagnosisSchema dv = .ok dr) (hdbad : dr.isValid = false) :
    extractNode env st w = (.ok { st with extracted_data := extractErrorMarker }, w) ∧
    diagnoseNode env st w = (.ok { st with diagnosis := diagnosisErrorMarker }, w) := by
  have hee : extractTryBody econtent =
      .error (.jsError ("Schema validation failed: " ++
        String.intercalate ", " er.errors)) := by
    unfold extractTryBody
    simp only [heparse, except_bind_ok, heval, hebad]
    rfl
  have hde : diagnoseTryBody dcontent =
      .error (.jsError ("Diagnosis schema validation failed: " ++
        String.intercalate ", " dr.errors)) := by
    unfold diagnoseTryBody
    simp only [hdparse, except_bind_ok, hdval, hdbad]
    rfl
  constructor
  · have h1 := extractNode_run env st w p econtent mtext hep hp hm hg
    rw [show extractResultOf econtent = extractErrorMarker by
      unfold extractResultOf; rw [hee]] at h1
    exact h1
  · have h2 := diagnoseNode_run env st w q dcontent mtext hdp hq hm ho
    rw [show diagnosisResultOf dcontent = diagnosisErrorMarker by
      unfold diagnosisResultOf; rw [hde]] at h2
    exact h2

/-- Witness for C4's amended theorem. -/
theorem c4_degraded_output_fixed_witness :
    extractNode envBothBad (initState "hola" .null) emptyWorld =
      (.ok { initState "hola" .null with extracted_data := extractErrorMarker }, emptyWorld) ∧
    diagnoseNode envBothBad (initState "hola" .null) emptyWorld =
      (.ok { initState "hola" .null with diagnosis := diagnosisErrorMarker }, emptyWorld) :=
  c4_degraded_output_fixed envBothBad (initState "hola" .null) emptyWorld
    "Extrae: {text}" "Diagnostica: {context}" "\x7b\x7d" "\x7b\"diagnosis\": 5\x7d" "hola"
    (.obj []) (.obj [("diagnosis", .num 5)])
    (VResult.mk false ["Missing patient_info", "symptoms must be array", "motive must be string"])
    (VResult.mk false
      ["diagnosis must be string", "treatment must be string", "recommendations must be string"])
    rfl (by decide) rfl (by decide) rfl rfl rfl rfl rfl rfl rfl rfl rfl

/-- Claim C10: a completed run returns only the projected response (the
`successOf` shape: patient_info, symptoms, motive, diagnosis, treatment,
recommendations, metadata, with success carried by the constructor).  When the
extract step degraded to its error marker, the marker is invisible in the
response: the three extraction fields take their defaults and no drift flag
equals the marker message; when the diagnose step degraded, the three
diagnosis fields are empty strings. -/
theorem c10_success_projection (env : Env) (w : World) (text : String) (pid : JSValue)
    (p q content diagContent : String)
    (hep : env.extractPrompt = some p) (hp : p ≠ "")
    (hdp : env.diagnosisPrompt = some q) (hq : q ≠ "")
    (hg : env.geminiResp = .ok content) (ho : env.openaiResp = .ok diagContent) :
    ∃ r w', processMessage env w text pid = (.success r, w') ∧
      ((∃ e, extractTryBody content = .error e) →
        r.patient_info = .obj [] ∧ r.symptoms = .arr [] ∧ r.motive = .str "" ∧
        ∀ f ∈ r.metadata.drift_flags, f ≠ "No se pudo extraer datos estructurados") ∧
      ((∃ e, diagnoseTryBody diagContent = .error e) →
        r.diagnosis = .str "" ∧ r.treatment = .str "" ∧ r.recommendations = .str "") := by
  obtain ⟨ctx, flags, w', hw, hflags⟩ :=
    runWorkflow_run env w text pid p q content diagContent hep hp hdp hq hg ho
  refine ⟨_, w', processMessage_ok env w text pid _ w' hw, ?_, ?_⟩
  · rintro ⟨e, he⟩
    have hres : extractResultOf content = extractErrorMarker := by
      unfold extractResultOf
      rw [he]
    refine ⟨?_, ?_, ?_, ?_⟩
    · show jsOrDefault (optChain (extractResultOf content) "patient_info") (.obj []) = .obj []
      rw [hres]
      rfl
    · show jsOrDefault (optChain (extractResultOf content) "symptoms") (.arr []) = .arr []
      rw [hres]
      rfl
    · show jsOrDefault (optChain (extractResultOf content) "motive") (.str "") = .str ""
      rw [hres]
      rfl
    · intro f hf
      rcases hflags f hf with ⟨errs, rfl⟩ | ⟨c, a, rfl⟩
      · exact schemaDriftMsg_ne_extract_marker errs
      · exact varianceMsg_ne_extract_marker c a
  · rintro ⟨e, he⟩
    have hres : diagnosisResultOf diagContent = diagnosisErrorMarker := by
      unfold diagnosisResultOf
      rw [he]
    refine ⟨?_, ?_, ?_⟩
    · show jsOrDefault (optChain (diagnosisResultOf diagContent) "diagnosis") (.str "") = .str ""
      rw [hres]
      rfl
    · show jsOrDefault (optChain (diagnosisResultOf diagContent) "treatment") (.str "") = .str ""
      rw [hres]
      rfl
    · show jsOrDefault (optChain (diagnosisResultOf diagContent) "recommendations") (.str "") =
        .str ""
      rw [hres]
      rfl

/-- Witness for C10 with both steps degrading. -/
theorem c10_success_projection_witness :
    ∃ r w', processMessage envBothBad emptyWorld "hola" .null = (.success r, w') ∧
      ((∃ e, extractTryBody "\x7b\x7d" = .error e) →
        r.patient_info = .obj [] ∧ r.symptoms = .arr [] ∧ r.motive = .str "" ∧
        ∀ f ∈ r.metadata.drift_flags, f ≠ "No se pudo extraer datos estructurados") ∧
      ((∃ e, diagnoseTryBody "\x7b\"diagnosis\": 5\x7d" = .error e) →
        r.diagnosis = .str "" ∧ r.treatment = .str "" ∧ r.recommendations = .str "") :=
  c10_success_projection envBothBad emptyWorld "hola" .null
    "Extrae: {text}" "Diagnostica: {context}" "\x7b\x7d" "\x7b\"diagnosis\": 5\x7d"
    rfl (by decide) rfl (by decide) rfl rfl
